import Mathlib

/-!
Verification of the `pyrust-task-id` commit-message hook (src/lib.rs).

The core pipeline is embedded shallowly:
* byte/char-level string scanning is modelled on `List Char` (all needles
  involved — `"\n#"`, `"\n\n"`, `"\n\n\n\n"`, `"\\n"` — are ASCII, so Rust's
  byte indices and char indices agree at every relevant position);
* the external `regex` crate is modelled abstractly by its interface
  (`captures` returning an optional set of named groups);
* the external `strfmt` crate is modelled from the spec as a brace scanner;
* `exit(1)` / `eprintln!` are modelled by an `Except` error carrying the
  diagnostic, and file I/O by explicit `Option String` state.
-/

/-- Rust `needle.is_prefix / str starts-with` test on char lists:
`startsWithSub needle hay` is true when `needle` is an initial segment of
`hay`. -/
def startsWithSub : List Char → List Char → Bool
  | [], _ => true
  | _ :: _, [] => false
  | n :: ns, h :: hs => n = h && startsWithSub ns hs

/-- Rust `str::find(needle)`: index of the first occurrence of `needle` in
`hay`, if any. -/
def findSub (needle : List Char) : List Char → Option Nat
  | [] => if startsWithSub needle [] then some 0 else none
  | c :: t =>
    if startsWithSub needle (c :: t) then some 0
    else (findSub needle t).map (· + 1)

/-- Rust `str::split_once(needle)`: split `hay` at the first occurrence of
`needle`, dropping the needle itself. -/
def splitOnce (needle hay : List Char) : Option (List Char × List Char) :=
  (findSub needle hay).map fun i => (hay.take i, hay.drop (i + needle.length))

/-- Worker for `replaceSub`.  The `Nat` argument counts characters still to
be skipped because they were consumed by the previous match. -/
def replaceAux (needle repl : List Char) : Nat → List Char → List Char
  | _ + 1, [] => []
  | k + 1, _ :: t => replaceAux needle repl k t
  | 0, [] => []
  | 0, c :: t =>
    if !needle.isEmpty && startsWithSub needle (c :: t) then
      repl ++ replaceAux needle repl (needle.length - 1) t
    else
      c :: replaceAux needle repl 0 t

/-- Rust `str::replace(needle, repl)` for a non-empty needle: every
non-overlapping occurrence, scanned left to right, is replaced exactly once
(a single pass, not a fixed-point rewrite).  Both call sites in the source
pass non-empty literal needles. -/
def replaceSub (needle repl hay : List Char) : List Char :=
  replaceAux needle repl 0 hay

/-- Rust `s.replace(pat, rep)` lifted to `String`. -/
def replaceStr (s pat rep : String) : String :=
  String.mk (replaceSub pat.toList rep.toList s.toList)

/-- Rust `s.contains(pat)` (literal substring containment). -/
def containsStr (s pat : String) : Bool :=
  (findSub pat.toList s.toList).isSome

/-- Rust `str::trim`: drop whitespace characters from both ends. -/
def trimChars (l : List Char) : List Char :=
  ((l.dropWhile Char.isWhitespace).reverse.dropWhile Char.isWhitespace).reverse

/-- Rust `s.trim()` lifted to `String`. -/
def trimStr (s : String) : String :=
  String.mk (trimChars s.toList)

/-- lib.rs lines 52–54: index of the first `"\n#"` (defaulting to the end)
and truncation there — the comment-section strip of `get_subject_and_body`. -/
def truncate_at_comment (cs : List Char) : List Char :=
  cs.take ((findSub ['\n', '#'] cs).getD cs.length)

/-- lib.rs `get_subject_and_body` (lines 49–61): strip the comment section
that begins at the first `"\n#"`, then split once at the first `"\n\n"`;
without a separator the whole truncated text is the subject and the body is
empty. -/
def get_subject_and_body (commit_message : String) : String × String :=
  let commit_message := truncate_at_comment commit_message.toList
  match splitOnce ['\n', '\n'] commit_message with
  | some (subject, body) => (String.mk subject, String.mk body)
  | none => (String.mk commit_message, "")

/-- Modelled from the spec: the external `regex` crate's `Captures` value.
Only the interface used by lib.rs is kept: `name g` returns the text
(`Match::as_str`) of the capture group named `g`, if that group exists and
participated in the match. -/
structure Captures where
  name : String → Option String

/-- Modelled from the spec: a compiled regular expression of the external
`regex` crate, reduced to the one operation lib.rs uses — `captures`
returns the capture set of the first match, or `none` when the pattern does
not match the haystack. -/
structure Regex where
  captures : String → Option Captures

/-- lib.rs `TaskIDError` (lines 16–20). -/
inductive TaskIDError where
  | NotInBranch
  | WrongCapturingGroup
deriving DecidableEq

/-- lib.rs `get_task_id` (lines 67–81): apply the regex to the branch name;
no match is `NotInBranch`; a match without a `task_template` named group is
`WrongCapturingGroup`; otherwise the captured text is returned as-is. -/
def get_task_id (branch_name : String) (regex : Regex) :
    Except TaskIDError String :=
  match regex.captures branch_name with
  | none => .error .NotInBranch
  | some regex_match =>
    match regex_match.name "task_template" with
    | none => .error .WrongCapturingGroup
    | some captured_group => .ok captured_group

/-- Modelled from the spec: the worker of the external `strfmt` crate's
formatter.  The first list argument is `none` in normal text mode and
`some acc` while scanning a placeholder name between braces (`acc` holds
the name's characters in reverse).  `\x7b\x7b` / `\x7d\x7d` are literal
brace escapes; an unmatched or nested brace, or a placeholder name the
variable map does not know, is a formatting error (`none`).  Width/fill
format specifications, which the spec never mentions, are not modelled:
a name with a spec is simply an unknown name. -/
def strfmtGo (vars : String → Option String) :
    Option (List Char) → List Char → Option (List Char)
  | none, [] => some []
  | none, '{' :: '{' :: rest => (strfmtGo vars none rest).map ('{' :: ·)
  | none, '{' :: rest => strfmtGo vars (some []) rest
  | none, '}' :: '}' :: rest => (strfmtGo vars none rest).map ('}' :: ·)
  | none, '}' :: _ => none
  | none, c :: rest => (strfmtGo vars none rest).map (c :: ·)
  | some _, [] => none
  | some acc, '}' :: rest =>
    match vars (String.mk acc.reverse) with
    | some v => (strfmtGo vars none rest).map (v.toList ++ ·)
    | none => none
  | some _, '{' :: _ => none
  | some acc, c :: rest => strfmtGo vars (some (c :: acc)) rest

/-- Modelled from the spec: `strfmt(template, vars)` of the external
`strfmt` crate — substitute every `\x7bname\x7d` placeholder with
`vars name`, failing on malformed placeholder syntax or unknown names. -/
def strfmt (template : String) (vars : String → Option String) :
    Option String :=
  (strfmtGo vars none template.toList).map String.mk

/-- The placeholder map lib.rs builds in `format_commit_message`
(lines 110–114): `subject`, `body` and `task_id`. -/
def placeholder_map (commit_subject commit_body task_id : String) :
    String → Option String := fun key =>
  if key = "subject" then some commit_subject
  else if key = "body" then some commit_body
  else if key = "task_id" then some task_id
  else none

/-- The fatal outcomes of the pipeline: each models an `eprintln!` followed
by `exit(1)` in lib.rs, carrying the printed diagnostic. -/
inductive Fatal where
  | BadRegex (diagnostic : String)
  | BadTemplate (diagnostic : String)
deriving DecidableEq

/-- The diagnostic printed by lib.rs line 121 before `exit(1)` when the
template cannot be rendered. -/
def bad_template_diagnostic : String :=
  "Message template is incorrect. It must contain `subject`, `body` and `task_id` placeholders."

/-- lib.rs `format_commit_message` (lines 104–124): render the template via
`strfmt` with the three placeholders, then collapse every `"\n\n\n\n"` into
`"\n\n"` in one replace pass; a `strfmt` failure prints a diagnostic and
exits nonzero, modelled as `Fatal.BadTemplate`. -/
def format_commit_message (message_template commit_subject commit_body
    task_id : String) : Except Fatal String :=
  match strfmt message_template
      (placeholder_map commit_subject commit_body task_id) with
  | some updated_message => .ok (replaceStr updated_message "\n\n\n\n" "\n\n")
  | none => .error (.BadTemplate bad_template_diagnostic)

/-- The outcome of a non-fatal run of `provide_task_id_into_commit`:
`warned` records whether the `log::warn!` diagnostic of lib.rs line 155 was
emitted, and `written` is `some m` exactly when the run called
`update_commit_with_message` to overwrite the file with `m`. -/
structure RunOk where
  warned : Bool
  written : Option String
deriving DecidableEq

/-- lib.rs `provide_task_id_into_commit` (lines 127–179).  `task_regex` is
the result of `Regex::new(task_regex_raw)` (external crate), `none` meaning
the pattern failed to compile; `file_contents` is the result of
`read_to_string` on the message file, `none` meaning the file is missing
(`unwrap_or_default` turns that into the empty string). -/
def provide_task_id_into_commit (task_regex : Option Regex)
    (commit_message_template : String) (file_contents : Option String)
    (branch_name : String) : Except Fatal RunOk :=
  let template := replaceStr commit_message_template "\\n" "\n"
  match task_regex with
  | none => .error (.BadRegex "Make sure task regex is correct.")
  | some task_regex =>
    let commit_message := file_contents.getD ""
    let commit_message := trimStr commit_message
    let sb := get_subject_and_body commit_message
    match get_task_id branch_name task_regex with
    | .error .WrongCapturingGroup => .ok ⟨true, none⟩
    | .error .NotInBranch => .ok ⟨false, none⟩
    | .ok task_id =>
      if containsStr sb.1 task_id || containsStr sb.2 task_id then
        .ok ⟨false, none⟩
      else
        match format_commit_message template sb.1 sb.2 task_id with
        | .error e => .error e
        | .ok updated_commit_message => .ok ⟨false, some updated_commit_message⟩

/-- The contents of the commit-message file after a run: unchanged unless
the run ended by writing a rendered message. -/
def file_after (orig : Option String) : Except Fatal RunOk → Option String
  | .error _ => orig
  | .ok r =>
    match r.written with
    | some m => some m
    | none => orig

/-- Process exit status of a run: `exit(1)` on a fatal outcome, `0`
otherwise. -/
def exit_code : Except Fatal RunOk → Nat
  | .error _ => 1
  | .ok _ => 0

deriving instance DecidableEq for Except

/-- A regex that matches every haystack and captures `"T"` in the
`task_template` named group — an abstract stand-in for a well-configured
pattern. -/
def regexNamedT : Regex :=
  ⟨fun _ => some ⟨fun g => if g = "task_template" then some "T" else none⟩⟩

/-- A regex that matches every haystack but whose match carries no named
group at all — an abstract stand-in for a pattern such as
`test/(ABC-\d+).*`, whose single capturing group is unnamed. -/
def regexUnnamedGroup : Regex := ⟨fun _ => some ⟨fun _ => none⟩⟩

/-- A regex that matches no haystack — an abstract stand-in for a pattern
applied to a mainline branch. -/
def regexNoMatch : Regex := ⟨fun _ => none⟩

/-- A regex matching exactly the branch `feature/ABC-123-x`, capturing
`ABC-123` in `task_template`. -/
def regexFeatureABC : Regex :=
  ⟨fun branch =>
    if branch = "feature/ABC-123-x" then
      some ⟨fun g => if g = "task_template" then some "ABC-123" else none⟩
    else none⟩

theorem startsWithSub_iff :
    ∀ (n h : List Char), startsWithSub n h = true ↔ ∃ t, h = n ++ t
  | [], h => by simp [startsWithSub]
  | _ :: _, [] => by simp [startsWithSub]
  | a :: ns, b :: hs => by
    simp only [startsWithSub, Bool.and_eq_true, decide_eq_true_eq,
      List.cons_append, List.cons.injEq]
    rw [startsWithSub_iff ns hs]
    constructor
    · rintro ⟨rfl, t, rfl⟩
      exact ⟨t, rfl, rfl⟩
    · rintro ⟨t, rfl, rfl⟩
      exact ⟨rfl, t, rfl⟩

theorem findSub_isSome_iff :
    ∀ (needle hay : List Char),
      (findSub needle hay).isSome = true ↔
        ∃ pre post, hay = pre ++ needle ++ post
  | needle, [] => by
    constructor
    · intro hs
      have h : startsWithSub needle [] = true := by
        by_contra hc
        rw [Bool.not_eq_true] at hc
        simp [findSub, hc] at hs
      obtain ⟨t, ht⟩ := (startsWithSub_iff needle []).mp h
      obtain ⟨hn, -⟩ := List.append_eq_nil.mp ht.symm
      exact ⟨[], [], by simp [hn]⟩
    · rintro ⟨pre, post, heq⟩
      obtain ⟨h1, rfl⟩ := List.append_eq_nil.mp heq.symm
      obtain ⟨rfl, rfl⟩ := List.append_eq_nil.mp h1
      simp [findSub, startsWithSub]
  | needle, c :: t => by
    by_cases h : startsWithSub needle (c :: t) = true
    · obtain ⟨tl, htl⟩ := (startsWithSub_iff needle (c :: t)).mp h
      simp only [findSub, if_pos h, Option.isSome_some, true_iff]
      exact ⟨[], tl, by simpa using htl⟩
    · simp only [findSub, if_neg h, Option.isSome_map']
      rw [findSub_isSome_iff needle t]
      constructor
      · rintro ⟨pre, post, rfl⟩
        exact ⟨c :: pre, post, rfl⟩
      · rintro ⟨pre, post, heq⟩
        rcases pre with - | ⟨p, ps⟩
        · exact absurd ((startsWithSub_iff needle (c :: t)).mpr
            ⟨post, by simpa using heq⟩) (by simpa using h)
        · simp only [List.cons_append, List.cons.injEq] at heq
          obtain ⟨rfl, heq⟩ := heq
          exact ⟨ps, post, heq⟩

/-- Rust's `contains` is literal substring containment. -/
theorem containsStr_iff (s pat : String) :
    containsStr s pat = true ↔
      ∃ pre post, s.toList = pre ++ pat.toList ++ post := by
  unfold containsStr
  exact findSub_isSome_iff pat.toList s.toList

/-- Claim C1: for every branch name and compiled pattern, `get_task_id`
fails with the not-matched condition (`NotInBranch`) exactly when the
pattern does not match the branch; fails with the missing-named-group
condition (`WrongCapturingGroup`, distinct from `NotInBranch`) exactly when
the pattern matches but the match has no capture named `task_template`; and
on success returns the substring captured by `task_template` verbatim. -/
theorem claim_C1_task_id_classification (branch_name : String)
    (regex : Regex) :
    (get_task_id branch_name regex = .error .NotInBranch ↔
      regex.captures branch_name = none)
  ∧ (get_task_id branch_name regex = .error .WrongCapturingGroup ↔
      ∃ m, regex.captures branch_name = some m ∧
        m.name "task_template" = none)
  ∧ (∀ m captured, regex.captures branch_name = some m →
      m.name "task_template" = some captured →
      get_task_id branch_name regex = .ok captured)
  ∧ TaskIDError.NotInBranch ≠ TaskIDError.WrongCapturingGroup := by
  refine ⟨?_, ?_, ?_, by decide⟩
  · unfold get_task_id
    cases hc : regex.captures branch_name with
    | none => simp
    | some m => cases hn : m.name "task_template" <;> simp [hn]
  · unfold get_task_id
    cases hc : regex.captures branch_name with
    | none => simp
    | some m => cases hn : m.name "task_template" <;> simp [hn]
  · intro m captured hc hn
    simp [get_task_id, hc, hn]

theorem claim_C1_witness :
    get_task_id "feature/ABC-123-x" regexFeatureABC = .ok "ABC-123" :=
  (claim_C1_task_id_classification "feature/ABC-123-x" regexFeatureABC).2.2.1
    ⟨fun g => if g = "task_template" then some "ABC-123" else none⟩
    "ABC-123" rfl rfl

/-- Claim C2: `get_subject_and_body` first truncates its input at the first
occurrence of a newline immediately followed by `#` (keeping everything
before it), then splits the truncated text at the first occurrence of two
consecutive newlines — subject before, body after, the body not re-split at
later blank lines — and when no separator exists the subject is the whole
truncated text and the body is empty.  The function is total by
construction. -/
theorem claim_C2_splitter (msg : String) :
    (∀ i, findSub ['\n', '\n'] (truncate_at_comment msg.toList) = some i →
      get_subject_and_body msg =
        (String.mk ((truncate_at_comment msg.toList).take i),
         String.mk ((truncate_at_comment msg.toList).drop (i + 2))))
  ∧ (findSub ['\n', '\n'] (truncate_at_comment msg.toList) = none →
      get_subject_and_body msg =
        (String.mk (truncate_at_comment msg.toList), ""))
  ∧ get_subject_and_body "Subject\n\nBody" = ("Subject", "Body")
  ∧ get_subject_and_body "Subject" = ("Subject", "")
  ∧ get_subject_and_body "Subject\n\nBody\nmore\n\nEmpty-line body" =
      ("Subject", "Body\nmore\n\nEmpty-line body")
  ∧ get_subject_and_body "A\n\nB\n#c\n\nd" = ("A", "B") := by
  refine ⟨?_, ?_, by decide, by decide, by decide, by decide⟩
  · intro i h
    simp only [String.toList] at h
    simp [get_subject_and_body, splitOnce, h]
  · intro h
    simp only [String.toList] at h
    simp [get_subject_and_body, splitOnce, h]

theorem claim_C2_witness :
    get_subject_and_body "Subject\n\nBody" =
      (String.mk ((truncate_at_comment "Subject\n\nBody".toList).take 7),
       String.mk ((truncate_at_comment "Subject\n\nBody".toList).drop (7 + 2))) :=
  (claim_C2_splitter "Subject\n\nBody").1 7 (by decide)

/-- Claim C3: whenever rendering succeeds, `format_commit_message` is the
placeholder substitution followed by a single left-to-right non-overlapping
replacement of every four-newline run by two newlines; the canonical
template with empty body renders to subject and task id separated by one
blank line, with non-empty body to the three parts blank-line separated;
and the replacement is one pass, not a fixed-point collapse (six newlines
become four, not two). -/
theorem claim_C3_renderer :
    (∀ (tmpl s b t r : String),
      strfmt tmpl (placeholder_map s b t) = some r →
      format_commit_message tmpl s b t =
        .ok (replaceStr r "\n\n\n\n" "\n\n"))
  ∧ format_commit_message "{subject}\n\n{body}\n\n{task_id}" "S" "" "T" =
      .ok "S\n\nT"
  ∧ format_commit_message "{subject}\n\n{body}\n\n{task_id}" "S" "B" "T" =
      .ok "S\n\nB\n\nT"
  ∧ replaceStr "a\n\n\n\n\n\nb" "\n\n\n\n" "\n\n" = "a\n\n\n\nb" := by
  refine ⟨?_, by decide, by decide, by decide⟩
  · intro tmpl s b t r h
    simp [format_commit_message, h]

theorem claim_C3_witness :
    format_commit_message "{subject}\n\n{body}\n\n{task_id}" "S" "" "T" =
      .ok (replaceStr "S\n\n\n\nT" "\n\n\n\n" "\n\n") :=
  claim_C3_renderer.1 "{subject}\n\n{body}\n\n{task_id}" "S" "" "T"
    "S\n\n\n\nT" (by decide)

/-- Claim C4: the presence check is true exactly when the task id occurs as
a literal substring of the subject or of the body, and whenever it is true
the pipeline returns successfully without writing the message file. -/
theorem claim_C4_presence_check :
    (∀ (s pat : String), containsStr s pat = true ↔
      ∃ pre post, s.toList = pre ++ pat.toList ++ post)
  ∧ (∀ (rx : Regex) (tmpl : String) (file : Option String)
      (branch task_id : String),
      get_task_id branch rx = .ok task_id →
      (containsStr (get_subject_and_body (trimStr (file.getD ""))).1
          task_id ||
        containsStr (get_subject_and_body (trimStr (file.getD ""))).2
          task_id) = true →
      provide_task_id_into_commit (some rx) tmpl file branch =
        .ok ⟨false, none⟩
      ∧ file_after file
          (provide_task_id_into_commit (some rx) tmpl file branch) = file) := by
  refine ⟨containsStr_iff, ?_⟩
  intro rx tmpl file branch task_id hid hpres
  have hp : provide_task_id_into_commit (some rx) tmpl file branch =
      .ok ⟨false, none⟩ := by
    simp [provide_task_id_into_commit, hid, hpres]
  exact ⟨hp, by rw [hp]; simp [file_after]⟩

theorem claim_C4_witness :
    provide_task_id_into_commit (some regexNamedT) "{subject}"
      (some "S\n\nT body") "b" = .ok ⟨false, none⟩
    ∧ file_after (some "S\n\nT body")
        (provide_task_id_into_commit (some regexNamedT) "{subject}"
          (some "S\n\nT body") "b") = some "S\n\nT body" :=
  claim_C4_presence_check.2 regexNamedT "{subject}" (some "S\n\nT body")
    "b" "T" rfl (by decide)

/-- Claim C5: when the branch matcher fails, the pipeline terminates with
exit status 0 and leaves the message file unmodified — silently on
`NotInBranch` (no match), and with the configuration-warning diagnostic
(`warned = true`) on `WrongCapturingGroup` (missing named group). -/
theorem claim_C5_matcher_failures (rx : Regex) (tmpl : String)
    (file : Option String) (branch : String) :
    (get_task_id branch rx = .error .NotInBranch →
      provide_task_id_into_commit (some rx) tmpl file branch =
        .ok ⟨false, none⟩
      ∧ file_after file
          (provide_task_id_into_commit (some rx) tmpl file branch) = file
      ∧ exit_code
          (provide_task_id_into_commit (some rx) tmpl file branch) = 0)
  ∧ (get_task_id branch rx = .error .WrongCapturingGroup →
      provide_task_id_into_commit (some rx) tmpl file branch =
        .ok ⟨true, none⟩
      ∧ file_after file
          (provide_task_id_into_commit (some rx) tmpl file branch) = file
      ∧ exit_code
          (provide_task_id_into_commit (some rx) tmpl file branch) = 0) := by
  constructor
  · intro h
    have hp : provide_task_id_into_commit (some rx) tmpl file branch =
        .ok ⟨false, none⟩ := by
      simp [provide_task_id_into_commit, h]
    exact ⟨hp, by rw [hp]; simp [file_after], by rw [hp]; simp [exit_code]⟩
  · intro h
    have hp : provide_task_id_into_commit (some rx) tmpl file branch =
        .ok ⟨true, none⟩ := by
      simp [provide_task_id_into_commit, h]
    exact ⟨hp, by rw [hp]; simp [file_after], by rw [hp]; simp [exit_code]⟩

theorem claim_C5_witness :
    (provide_task_id_into_commit (some regexNoMatch) "{subject}" (some "M")
        "main" = .ok ⟨false, none⟩
      ∧ file_after (some "M")
          (provide_task_id_into_commit (some regexNoMatch) "{subject}"
            (some "M") "main") = some "M"
      ∧ exit_code (provide_task_id_into_commit (some regexNoMatch)
          "{subject}" (some "M") "main") = 0)
  ∧ (provide_task_id_into_commit (some regexUnnamedGroup) "{subject}"
        (some "M") "main" = .ok ⟨true, none⟩
      ∧ file_after (some "M")
          (provide_task_id_into_commit (some regexUnnamedGroup) "{subject}"
            (some "M") "main") = some "M"
      ∧ exit_code (provide_task_id_into_commit (some regexUnnamedGroup)
          "{subject}" (some "M") "main") = 0) :=
  ⟨(claim_C5_matcher_failures regexNoMatch "{subject}" (some "M") "main").1
      rfl,
   (claim_C5_matcher_failures regexUnnamedGroup "{subject}" (some "M")
      "main").2 rfl⟩

/-- Claim C6 counterexample: with template `\x7bsubject\x7d` the first run
rewrites the file to `"S "`; running the pipeline again on that rendered
message with the same branch and pattern does not take the pass-through
path — it renders and writes again, and the file contents change to `"S"`.
The claim as stated (every rendered message passes through unchanged on a
second run) is therefore false. -/
theorem claim_C6_counterexample :
    provide_task_id_into_commit (some regexNamedT) "{subject}"
      (some "S \n\nB") "branch" = .ok ⟨false, some "S "⟩
  ∧ provide_task_id_into_commit (some regexNamedT) "{subject}"
      (some "S ") "branch" = .ok ⟨false, some "S"⟩
  ∧ file_after (some "S ")
      (provide_task_id_into_commit (some regexNamedT) "{subject}"
        (some "S ") "branch") = some "S"
  ∧ ("S" : String) ≠ "S " :=
  ⟨by decide, by decide, by decide, by decide⟩

/-- Claim C6 (amended): for every rendered message `m` produced by one
successful rewriting run, **provided the injected identifier still occurs
in the subject or body obtained by re-splitting `m`**, running the pipeline
again on `m` with the same branch and pattern takes the pass-through path:
it returns successfully with no warning and no write, so the identifier is
never inserted twice. -/
theorem claim_C6_idempotence (rx : Regex) (tmpl0 tmpl : String)
    (file0 : Option String) (branch task_id m : String)
    (_hrun1 : provide_task_id_into_commit (some rx) tmpl0 file0 branch =
      .ok ⟨false, some m⟩)
    (hid : get_task_id branch rx = .ok task_id)
    (hpresent : (containsStr (get_subject_and_body (trimStr m)).1 task_id ||
      containsStr (get_subject_and_body (trimStr m)).2 task_id) = true) :
    provide_task_id_into_commit (some rx) tmpl (some m) branch =
      .ok ⟨false, none⟩
    ∧ file_after (some m)
        (provide_task_id_into_commit (some rx) tmpl (some m) branch) =
      some m := by
  have hp : provide_task_id_into_commit (some rx) tmpl (some m) branch =
      .ok ⟨false, none⟩ := by
    simp [provide_task_id_into_commit, hid, hpresent]
  exact ⟨hp, by rw [hp]; simp [file_after]⟩

theorem claim_C6_witness :
    provide_task_id_into_commit (some regexNamedT)
      "{subject}\n\n{body}\n\n{task_id}" (some "S\n\nB\n\nT") "b" =
      .ok ⟨false, none⟩
    ∧ file_after (some "S\n\nB\n\nT")
        (provide_task_id_into_commit (some regexNamedT)
          "{subject}\n\n{body}\n\n{task_id}" (some "S\n\nB\n\nT") "b") =
      some "S\n\nB\n\nT" :=
  claim_C6_idempotence regexNamedT "{subject}\n\n{body}\n\n{task_id}"
    "{subject}\n\n{body}\n\n{task_id}" (some "S\n\nB") "b" "T" "S\n\nB\n\nT"
    (by decide) rfl (by decide)

/-- Claim C7: when template rendering fails, the whole invocation is fatal:
it terminates with exit status 1, the message file is not written, and the
diagnostic printed names all three required placeholders `subject`, `body`
and `task_id`. -/
theorem claim_C7_bad_template_fatal (rx : Regex) (tmpl : String)
    (file : Option String) (branch task_id : String)
    (hid : get_task_id branch rx = .ok task_id)
    (habsent : (containsStr (get_subject_and_body (trimStr (file.getD ""))).1
        task_id ||
      containsStr (get_subject_and_body (trimStr (file.getD ""))).2
        task_id) = false)
    (hbad : strfmt (replaceStr tmpl "\\n" "\n")
      (placeholder_map (get_subject_and_body (trimStr (file.getD ""))).1
        (get_subject_and_body (trimStr (file.getD ""))).2 task_id) = none) :
    provide_task_id_into_commit (some rx) tmpl file branch =
      .error (.BadTemplate bad_template_diagnostic)
    ∧ exit_code (provide_task_id_into_commit (some rx) tmpl file branch) = 1
    ∧ file_after file
        (provide_task_id_into_commit (some rx) tmpl file branch) = file
    ∧ containsStr bad_template_diagnostic "subject" = true
    ∧ containsStr bad_template_diagnostic "body" = true
    ∧ containsStr bad_template_diagnostic "task_id" = true := by
  have hp : provide_task_id_into_commit (some rx) tmpl file branch =
      .error (.BadTemplate bad_template_diagnostic) := by
    simp [provide_task_id_into_commit, format_commit_message, hid, habsent,
      hbad]
  exact ⟨hp, by rw [hp]; simp [exit_code], by rw [hp]; simp [file_after],
    by decide, by decide, by decide⟩

theorem claim_C7_witness :
    provide_task_id_into_commit (some regexNamedT) "\x7bsubject" (some "S")
      "b" = .error (.BadTemplate bad_template_diagnostic)
    ∧ exit_code (provide_task_id_into_commit (some regexNamedT)
        "\x7bsubject" (some "S") "b") = 1
    ∧ file_after (some "S") (provide_task_id_into_commit (some regexNamedT)
        "\x7bsubject" (some "S") "b") = some "S"
    ∧ containsStr bad_template_diagnostic "subject" = true
    ∧ containsStr bad_template_diagnostic "body" = true
    ∧ containsStr bad_template_diagnostic "task_id" = true :=
  claim_C7_bad_template_fatal regexNamedT "\x7bsubject" (some "S") "b" "T"
    rfl (by decide) (by decide)

/-- Claim C8: an absent commit-message file is not a failure — the run is
identical to a run on an empty file, and the splitter hands the downstream
steps an empty subject and an empty body. -/
theorem claim_C8_missing_file (rx : Option Regex) (tmpl branch : String) :
    provide_task_id_into_commit rx tmpl none branch =
      provide_task_id_into_commit rx tmpl (some "") branch
    ∧ get_subject_and_body (trimStr ((none : Option String).getD "")) =
      ("", "") :=
  ⟨rfl, by decide⟩

/-- Claim C9 counterexample: in the end-to-end no-op case (pattern matches
the branch but lacks the `task_template` named group) the file contents
remain exactly the **original** input — here ending in a newline — and not
the whitespace-trimmed original the claim describes: trimming happens only
on the in-memory copy, never on the file. -/
theorem claim_C9_counterexample :
    file_after (some "Commit subject\n\nCommit body\n")
      (provide_task_id_into_commit (some regexUnnamedGroup)
        "{subject}\\n\\n{body}\\n\\n{task_id}"
        (some "Commit subject\n\nCommit body\n") "test/ABC-111-test") =
      some "Commit subject\n\nCommit body\n"
  ∧ trimStr "Commit subject\n\nCommit body\n" ≠
      "Commit subject\n\nCommit body\n" :=
  ⟨by decide, by decide⟩

/-- Claim C9 (amended): in the end-to-end no-op case where the pattern
matches the branch but lacks the `task_template` named group, the run
terminates successfully with the configuration warning and the
commit-message file's contents are exactly the original input, unchanged in
every respect (in particular they are not trimmed). -/
theorem claim_C9_no_op_missing_group (rx : Regex) (tmpl : String)
    (file : Option String) (branch : String) (m : Captures)
    (hc : rx.captures branch = some m)
    (hn : m.name "task_template" = none) :
    provide_task_id_into_commit (some rx) tmpl file branch =
      .ok ⟨true, none⟩
    ∧ file_after file
        (provide_task_id_into_commit (some rx) tmpl file branch) = file := by
  have hid : get_task_id branch rx = .error .WrongCapturingGroup := by
    simp [get_task_id, hc, hn]
  have hp : provide_task_id_into_commit (some rx) tmpl file branch =
      .ok ⟨true, none⟩ := by
    simp [provide_task_id_into_commit, hid]
  exact ⟨hp, by rw [hp]; simp [file_after]⟩

theorem claim_C9_witness :
    provide_task_id_into_commit (some regexUnnamedGroup)
      "{subject}\\n\\n{body}\\n\\n{task_id}"
      (some "Commit subject\n\nCommit body\n") "test/ABC-111-test" =
      .ok ⟨true, none⟩
    ∧ file_after (some "Commit subject\n\nCommit body\n")
        (provide_task_id_into_commit (some regexUnnamedGroup)
          "{subject}\\n\\n{body}\\n\\n{task_id}"
          (some "Commit subject\n\nCommit body\n") "test/ABC-111-test") =
      some "Commit subject\n\nCommit body\n" :=
  claim_C9_no_op_missing_group regexUnnamedGroup
    "{subject}\\n\\n{body}\\n\\n{task_id}"
    (some "Commit subject\n\nCommit body\n") "test/ABC-111-test"
    ⟨fun _ => none⟩ rfl rfl

/-- Claim C10: a raw message whose very first character is `#` is not
treated as starting a comment block — the splitter only recognizes the
two-character boundary newline-then-`#` — so the leading comment line ends
up at the head of the subject. -/
theorem claim_C10_leading_hash (msg : String) (cs : List Char)
    (h : msg.toList = '#' :: cs) :
    (get_subject_and_body msg).1.toList.head? = some '#'
    ∧ get_subject_and_body "#comment\n\nBody" = ("#comment", "Body") := by
  refine ⟨?_, by decide⟩
  have hT : ∃ t', truncate_at_comment msg.toList = '#' :: t' := by
    rw [h]
    unfold truncate_at_comment
    cases hf : findSub ['\n', '#'] cs with
    | none =>
      refine ⟨cs.take cs.length, ?_⟩
      simp [findSub, hf, startsWithSub]
    | some j =>
      refine ⟨cs.take j, ?_⟩
      simp [findSub, hf, startsWithSub]
  obtain ⟨t', hT⟩ := hT
  have hmain : get_subject_and_body msg =
      (match splitOnce ['\n', '\n'] ('#' :: t') with
       | some (subject, body) => (String.mk subject, String.mk body)
       | none => (String.mk ('#' :: t'), "")) := by
    unfold get_subject_and_body
    rw [hT]
  rw [hmain]
  cases hf2 : findSub ['\n', '\n'] t' with
  | none => simp [splitOnce, findSub, hf2, startsWithSub]
  | some j => simp [splitOnce, findSub, hf2, startsWithSub]

theorem claim_C10_witness :
    (get_subject_and_body "#c\n\nBody").1.toList.head? = some '#'
    ∧ get_subject_and_body "#comment\n\nBody" = ("#comment", "Body") :=
  claim_C10_leading_hash "#c\n\nBody" "c\n\nBody".toList (by decide)
